import Mathlib

/-!
Verification development for the fireant datatables transformers
(`src/fireant/slicer/transformers/datatables.py`).

The Python module is shallowly embedded below.  Scalars held by a pandas
DataFrame are modelled by `Val` (Python floats are modelled only up to the
distinctions the transformers make: NaN, +inf, -inf, and identity of finite
values).  A DataFrame is a row index, a column index and a rectangular list
of cells.  Python `dict` lookups, `str.join`, single-character `str.replace`,
truthiness and `KeyError`/`IndexError`/`TypeError` propagation (via `Option`)
are modelled explicitly.  Each transformer method is translated to one Lean
definition keeping the source name.
-/

/-- Python float, modelled up to the distinctions `datatables.py` makes:
the missing sentinel `nan`, the two infinities, and finite values (identity
only; no arithmetic is performed on data points by the transformers). -/
inductive PyFloat where
  | nan
  | inf
  | ninf
  | fin (q : Int)
deriving DecidableEq, Repr

/-- A Python scalar as held in a DataFrame cell or index slot: `str`,
`pd.Timestamp` (year, month, day, hour, minute, second), `None`, `float`,
`np.int64`, plain `int`, `bool`. -/
inductive Val where
  | vStr (s : String)
  | vTs (y m d hh mi ss : Nat)
  | vNone
  | vFloat (f : PyFloat)
  | vInt64 (n : Int)
  | vInt (n : Int)
  | vBool (b : Bool)
deriving DecidableEq, Repr

/-- Python truthiness of a scalar (`bool(x)`). NaN and the infinities are
truthy in Python; empty string, `None`, zero and `False` are falsy. -/
def Val.truthy : Val → Bool
  | .vStr s => decide (s ≠ "")
  | .vTs _ _ _ _ _ _ => true
  | .vNone => false
  | .vFloat (.fin q) => decide (q ≠ 0)
  | .vFloat _ => true
  | .vInt64 n => decide (n ≠ 0)
  | .vInt n => decide (n ≠ 0)
  | .vBool b => b

/-- Embedding of `a or b` on Python scalars. -/
def pyOr (a b : Val) : Val := if a.truthy then a else b

/-- Zero-pad a natural to two digits (`strftime` field). -/
def pad2 (n : Nat) : String := if n < 10 then "0" ++ toString n else toString n

/-- Zero-pad a natural to four digits (`strftime %Y`). -/
def pad4 (n : Nat) : String :=
  if n < 10 then "000" ++ toString n
  else if n < 100 then "00" ++ toString n
  else if n < 1000 then "0" ++ toString n
  else toString n

/-- Embedding of `strftime` with format %Y-%m-%d. -/
def fmtDate (y m d : Nat) : String := pad4 y ++ "-" ++ pad2 m ++ "-" ++ pad2 d

/-- Embedding of `strftime` with format %Y-%m-%dT%H:%M:%S. -/
def fmtDateTime (y m d hh mi ss : Nat) : String :=
  fmtDate y m d ++ "T" ++ pad2 hh ++ ":" ++ pad2 mi ++ ":" ++ pad2 ss

/-- Embedding of `str(Timestamp)` (pandas default, space-separated). -/
def fmtTsSpace (y m d hh mi ss : Nat) : String :=
  fmtDate y m d ++ " " ++ pad2 hh ++ ":" ++ pad2 mi ++ ":" ++ pad2 ss

/-- Python `str(value)` for the scalars the transformers stringify. -/
def pyStr : Val → String
  | .vStr s => s
  | .vTs y m d hh mi ss => fmtTsSpace y m d hh mi ss
  | .vNone => "None"
  | .vFloat .nan => "nan"
  | .vFloat .inf => "inf"
  | .vFloat .ninf => "-inf"
  | .vFloat (.fin q) => toString q ++ ".0"
  | .vInt64 n => toString n
  | .vInt n => toString n
  | .vBool b => if b then "True" else "False"

/-- Embedding of `_format_data_point` (datatables.py lines 12-29): strings pass through;
timestamps render date-only at midnight (`NO_TIME = time(0)`) and full
otherwise; `None` and float NaN become `None`; `np.int64` becomes a plain
int; everything else is returned unchanged. -/
def format_data_point : Val → Val
  | .vStr s => .vStr s
  | .vTs y m d hh mi ss =>
      if hh = 0 ∧ mi = 0 ∧ ss = 0 then .vStr (fmtDate y m d)
      else .vStr (fmtDateTime y m d hh mi ss)
  | .vNone => .vNone
  | .vFloat .nan => .vNone
  | .vInt64 n => .vInt n
  | v => v

/-- Ordered-dict lookup with string keys (`d[k]` / `d.get(k)` returning
`none` on a missing key, i.e. where Python would raise `KeyError`). -/
def dictGet {α : Type} (m : List (String × α)) (k : String) : Option α :=
  (m.find? (fun p => decide (p.1 = k))).map (fun p => p.2)

/-- Dict lookup when the key in hand is a scalar (`d[val]`): the schema
dicts are keyed by strings, so any non-string key misses. -/
def dictGetV' {α : Type} (m : List (String × α)) (k : Val) : Option α :=
  match k with
  | .vStr s => dictGet m s
  | _ => none

/-- Embedding of `d.get(k, default)` on a `label_options` mapping (scalar keys). -/
def dictGetV (m : List (Val × Val)) (k default : Val) : Val :=
  match m.find? (fun p => decide (p.1 = k)) with
  | some p => p.2
  | none => default

/-- Embedding of `d.get(k, None)` on a `label_options` mapping, `None` as `Option`. -/
def dictGetOpt (m : List (Val × Val)) (k : Val) : Option Val :=
  (m.find? (fun p => decide (p.1 = k))).map (fun p => p.2)

/-- Python `sep.join(strs)`. -/
def pyJoin (sep : String) : List String → String
  | [] => ""
  | [x] => x
  | x :: xs => x ++ sep ++ pyJoin sep xs

/-- Embedding of `sep.join(vals)` on a list of scalars: Python raises `TypeError` when an
element is not a `str`, so the join is fallible. -/
def pyJoinVals (sep : String) (vs : List Val) : Option String := do
  let strs ← vs.mapM (fun v => match v with | .vStr s => some s | _ => none)
  pure (pyJoin sep strs)

/-- Embedding of `s.replace` with a dot as the needle: the source only ever
replaces the single dot character, so replacement is per-character
substitution. -/
def pyReplaceDot (s : String) (r : String) : String :=
  ⟨s.data.flatMap (fun ch => if ch = '.' then r.data else [ch])⟩

/-- Embedding of the Python `in` test on a string for the dot character. -/
def strContainsDot (s : String) : Bool := s.data.any (fun c => decide (c = '.'))

/-- Dimension descriptor from the display schema: `label` plus the optional
`label_field` companion-level name and `label_options` substitution map. -/
structure Dimension where
  label : String
  label_field : Option String := none
  label_options : Option (List (Val × Val)) := none
deriving DecidableEq, Repr

/-- The display schema consumed by every transformer: ordered metric and
dimension dicts, plus the optional `references` dict (the Python membership test of
the references key corresponds to `references.isSome`). -/
structure DisplaySchema where
  metrics : List (String × String)
  dimensions : List (String × Dimension)
  references : Option (List (String × String)) := none
deriving DecidableEq, Repr

/-- A pandas row index: `RangeIndex`, a flat named `Index`, or a
`MultiIndex` (level names plus one key tuple per row). -/
inductive RowIndex where
  | range (n : Nat)
  | flat (name : Option String) (keys : List Val)
  | multi (names : List (Option String)) (keys : List (List Val))
deriving DecidableEq, Repr

/-- A pandas column index: flat (string column labels) or a `MultiIndex`
of tuples (reference key, metric key, pivoted level values...). -/
inductive Cols where
  | flat (keys : List String)
  | multi (names : List (Option String)) (keys : List (List Val))
deriving DecidableEq, Repr

/-- A pandas DataFrame: row index, column index, and one cell list per row
(rectangular, one cell per column). -/
structure DataFrame where
  index : RowIndex
  cols : Cols
  rows : List (List Val)
deriving DecidableEq, Repr

def RowIndex.isRange : RowIndex → Bool
  | .range _ => true
  | _ => false

def RowIndex.isMulti : RowIndex → Bool
  | .multi _ _ => true
  | _ => false

/-- Embedding of `index.names` (a `RangeIndex` or unnamed flat index has name `None`). -/
def RowIndex.names : RowIndex → List (Option String)
  | .range _ => [none]
  | .flat n _ => [n]
  | .multi ns _ => ns

/-- Embedding of `len(index.levels)` when the index is a MultiIndex, else 1
(mirrors `_render_data` line 84). -/
def RowIndex.nLevels : RowIndex → Nat
  | .multi ns _ => ns.length
  | _ => 1

/-- The row keys yielded by `dataframe.iterrows()`: a scalar for a flat or
range index, a tuple for a MultiIndex. -/
def RowIndex.iterIdx : RowIndex → List (Val ⊕ List Val)
  | .range n => (List.range n).map (fun i => Sum.inl (Val.vInt i))
  | .flat _ ks => ks.map Sum.inl
  | .multi _ ks => ks.map Sum.inr

/-- Embedding of `if not isinstance(idx, tuple): idx = (idx,)` (line 92-93). -/
def normIdx : Val ⊕ List Val → List Val
  | Sum.inl v => [v]
  | Sum.inr t => t

/-- Embedding of `index.get_level_values(name)`: fails (`KeyError`) when no level has
that name. -/
def RowIndex.levelValues (ri : RowIndex) (name : String) : Option (List Val) :=
  match ri with
  | .range _ => none
  | .flat n ks => if n = some name then some ks else none
  | .multi ns ks =>
      match ns.findIdx? (fun x => decide (x = some name)) with
      | some i => some (ks.filterMap (fun k => k.get? i))
      | none => none

def Cols.isMulti : Cols → Bool
  | .multi _ _ => true
  | _ => false

/-- Embedding of `columns.names` (flat column indexes here are unnamed). -/
def Cols.names : Cols → List (Option String)
  | .flat _ => [none]
  | .multi ns _ => ns

/-- Column keys as tuples of scalars (a flat string label is the singleton
tuple of itself) for helpers that treat both shapes uniformly. -/
def Cols.colKeysRaw : Cols → List (List Val)
  | .flat ks => ks.map (fun k => [Val.vStr k])
  | .multi _ ks => ks

/-- A column key as handed to `_render_column_level`: the raw string label
for flat columns, the tuple for MultiIndex columns
(`isinstance(metric_column, tuple)` distinguishes them). -/
inductive ColKey where
  | flat (k : String)
  | multi (t : List Val)
deriving DecidableEq, Repr

def Cols.colKeys : Cols → List ColKey
  | .flat ks => ks.map ColKey.flat
  | .multi _ ks => ks.map ColKey.multi

/-- Embedding of `metric_column[i]`: tuple indexing, or Python string indexing (yielding
a one-character string) when the column key is a flat string; out of range
raises (`none`). -/
def colKeyGet : ColKey → Nat → Option Val
  | .flat k, i => (k.data.get? i).map (fun c => Val.vStr ⟨[c]⟩)
  | .multi t, i => t.get? i

/-- Embedding of `isinstance(x, float) and np.isnan(x)`. -/
def isNaNVal : Val → Bool
  | .vFloat .nan => true
  | _ => false

/-- A row of the DataFrame viewed as a pandas Series whose index is the
column index of the DataFrame (`df_row` in `_render_data`). -/
structure Series where
  multi : Bool
  keys : List (List Val)
  vals : List Val
deriving DecidableEq, Repr

def mkRowSeries (cols : Cols) (vals : List Val) : Series :=
  ⟨cols.isMulti, cols.colKeysRaw, vals⟩

/-- Embedding of `series[k]` for a string key: direct lookup on a flat index; on a
MultiIndex, pandas partial indexing returns the scalar when exactly one
entry matches on the first level (several matches would yield a sub-Series,
which the transformers never consume as a scalar — modelled as failure). -/
def Series.getStr (ser : Series) (k : String) : Option Val :=
  if ser.multi then
    match (ser.keys.zip ser.vals).filter (fun p => decide (p.1.head? = some (Val.vStr k))) with
    | [p] => some p.2
    | _ => none
  else
    ((ser.keys.zip ser.vals).find? (fun p => decide (p.1.head? = some (Val.vStr k)))).map
      (fun p => p.2)

/-- Embedding of `series[key]` selecting on the first MultiIndex level and dropping it
(`df[reference]` in `_render_metric_data`); `KeyError` when nothing
matches or the index is not a MultiIndex. -/
def Series.sel1 (ser : Series) (k : Val) : Option Series :=
  if !ser.multi then none
  else
    let sel := (ser.keys.zip ser.vals).filterMap (fun p =>
      match p.1 with
      | v :: rest => if v = k then some (rest, p.2) else none
      | [] => none)
    if sel.isEmpty then none
    else
      let arity : Nat := ((sel.head?).map (fun p => p.1.length)).getD 0
      some ⟨decide (2 ≤ arity), sel.map (fun p => p.1), sel.map (fun p => p.2)⟩

/-- Embedding of `series[:, level]`: cross-section on the second MultiIndex level,
dropping it. -/
def Series.selSnd (ser : Series) (k : Val) : Option Series :=
  let sel := (ser.keys.zip ser.vals).filterMap (fun p =>
    if p.1.get? 1 = some k then some (p.1.eraseIdx 1, p.2) else none)
  if sel.isEmpty then none
  else
    let arity : Nat := ((sel.head?).map (fun p => p.1.length)).getD 0
    some ⟨decide (2 ≤ arity), sel.map (fun p => p.1), sel.map (fun p => p.2)⟩

/-- Embedding of `series[:, key, display]`: cross-section on the second and third
MultiIndex levels, dropping both. -/
def Series.selSnd2 (ser : Series) (k1 k2 : Val) : Option Series :=
  let sel := (ser.keys.zip ser.vals).filterMap (fun p =>
    if p.1.get? 1 = some k1 ∧ p.1.get? 2 = some k2 then
      some ((p.1.eraseIdx 2).eraseIdx 1, p.2)
    else none)
  if sel.isEmpty then none
  else
    let arity : Nat := ((sel.head?).map (fun p => p.1.length)).getD 0
    some ⟨decide (2 ≤ arity), sel.map (fun p => p.1), sel.map (fun p => p.2)⟩

/-- First-occurrence deduplication (order of first appearance; pandas
additionally sorts level categories, which no proved property depends on). -/
def dedupBy {α : Type} [DecidableEq α] (l : List α) : List α :=
  l.foldl (fun acc x => if x ∈ acc then acc else acc ++ [x]) []

/-- Embedding of `series.index.levels[i]`: the distinct values of level `i`. -/
def Series.level (ser : Series) (i : Nat) : List Val :=
  dedupBy (ser.keys.filterMap (fun k => k.get? i))

/-- A value of a rendered row record: a formatted scalar, a
`{display, value}` dimension entry, a display-only dimension entry, or a
nested dict (reference objects / pivoted-level objects). -/
inductive Cell where
  | scalar (v : Val)
  | dimDV (display value : Val)
  | dimD (display : Val)
  | nest (m : List (Val × Cell))

/-- Python dict assignment `d[k] = c`: overwrite in place, else append. -/
def dictInsert (m : List (Val × Cell)) (k : Val) (c : Cell) : List (Val × Cell) :=
  if m.any (fun p => decide (p.1 = k)) then
    m.map (fun p => if p.1 = k then (k, c) else p)
  else m ++ [(k, c)]

/-- Embedding of `dict(pairs)` / successive `row[key] = value` assignments. -/
def buildDict (l : List (Val × Cell)) : List (Val × Cell) :=
  l.foldl (fun acc p => dictInsert acc p.1 p.2) []

/-- A column descriptor holding a title and a data path. -/
structure Column where
  title : String
  data : String
deriving DecidableEq, Repr

/-- The rendered table structure holding columns and data records. -/
structure TableOut where
  columns : List Column
  data : List (List (Val × Cell))

/-- Embedding of `dataframe.replace([np.inf, -np.inf], np.nan)` on one cell. -/
def replaceInfVal : Val → Val
  | .vFloat .inf => .vFloat .nan
  | .vFloat .ninf => .vFloat .nan
  | v => v

/-- Embedding of `dataframe.replace([np.inf, -np.inf], np.nan)`: a fresh frame with the
infinities in the cells replaced by NaN (the index is untouched). -/
def replaceInfNan (df : DataFrame) : DataFrame :=
  { df with rows := df.rows.map (fun r => r.map replaceInfVal) }

/-- Embedding of `DataTablesRowIndexTransformer._prepare_dataframe` (lines 42-44). -/
def prepare_row (df : DataFrame) (_dims : List (String × Dimension)) : DataFrame :=
  replaceInfNan df

/-- The `unstack_levels` list built in
`DataTablesColumnIndexTransformer._prepare_dataframe` (lines 155-159):
every dimension key after the first, each followed by its `label_field`
companion when present. -/
def unstackLevels (dims : List (String × Dimension)) : List String :=
  (dims.drop 1).foldr
    (fun p acc =>
      p.1 :: (match p.2.label_field with
              | some lf => lf :: acc
              | none => acc))
    []

/-- Embedding of `dataframe.unstack(level=...)`: moves the named row-index levels into
the column index, cross-producting them with the existing columns; cells
with no source datum become NaN.  (pandas sorts the new keys; this model
keeps first-appearance order, which no proved property depends on.) -/
def DataFrame.unstack (df : DataFrame) (levelNames : List String) : DataFrame :=
  match df.index with
  | .multi names keys =>
      let pos := levelNames.filterMap
        (fun ln => names.findIdx? (fun x => decide (x = some ln)))
      let remPos := (List.range names.length).filter (fun i => decide (i ∉ pos))
      let project := fun (ps : List Nat) (k : List Val) => ps.filterMap (fun i => k.get? i)
      let newKeys := dedupBy (keys.map (project remPos))
      let combos := dedupBy (keys.map (project pos))
      let oldCols := df.cols.colKeysRaw
      let cellAt := fun (r u : List Val) (ci : Nat) =>
        match keys.findIdx? (fun k => decide (project remPos k = r ∧ project pos k = u)) with
        | some ri => ((df.rows.get? ri).bind (fun row => row.get? ci)).getD (.vFloat .nan)
        | none => Val.vFloat .nan
      let newRows := newKeys.map (fun r =>
        (List.range oldCols.length).flatMap (fun ci => combos.map (fun u => cellAt r u ci)))
      let newColKeys := oldCols.flatMap (fun c => combos.map (fun u => c ++ u))
      let remNames := remPos.filterMap (fun i => names.get? i)
      let newIndex :=
        match remNames, newKeys with
        | [n], _ => RowIndex.flat n (newKeys.filterMap (fun k => k.head?))
        | ns, ks => RowIndex.multi ns ks
      { index := newIndex,
        cols := .multi (df.cols.names ++ pos.filterMap (fun i => names.get? i)) newColKeys,
        rows := newRows }
  | _ => df

/-- Embedding of `DataTablesColumnIndexTransformer._prepare_dataframe` (lines 148-161):
replace the infinities, then unstack every dimension after the first
(plus `label_field` companions) unless fewer than two dimensions exist. -/
def prepare_col (df : DataFrame) (dims : List (String × Dimension)) : DataFrame :=
  let df' := prepare_row df dims
  if 2 > dims.length then df'
  else df'.unstack (unstackLevels dims)

/-- Embedding of `DataTablesRowIndexTransformer._render_column_level` (lines 58-81). -/
def render_column_level (mc : ColKey) (s : DisplaySchema) : Option Column :=
  match mc with
  | .flat k => do
      let lab ← dictGet s.metrics k
      pure ⟨lab, k⟩
  | .multi t => do
      let metric_key_idx := if s.references.isSome then 1 else 0
      let cond ←
        if metric_key_idx ≠ 0 then do
          let mc0 ← t.get? 0
          pure mc0.truthy
        else pure false
      if cond then do
        let reference_key ← t.get? 0
        let metric_key ← t.get? 1
        let mlab ← dictGetV' s.metrics metric_key
        let rlab ← dictGetV' (s.references.getD []) reference_key
        pure ⟨mlab ++ " " ++ rlab, pyJoin "." [pyStr reference_key, pyStr metric_key]⟩
      else do
        let metric_key ← t.get? metric_key_idx
        let mlab ← dictGetV' s.metrics metric_key
        pure ⟨mlab, pyJoin "." [pyStr metric_key]⟩

/-- The pivoted-level walk of
`DataTablesColumnIndexTransformer._render_column_level` (lines 166-189):
returns the accumulated `data_keys` and `levels` lists.  A level whose raw
value is NaN is appended to neither; `i` skips the `label_field` companion
slot. -/
def pivotLevelLoop (mc : ColKey) : List (String × Dimension) → Nat → Option (List Val × List Val)
  | [], _ => some ([], [])
  | (_, dim) :: rest, i =>
    match dim.label_options with
    | some opts => do
        let level_key ← colKeyGet mc i
        let level_label :=
          if !(isNaNVal level_key) then (dictGetOpt opts level_key).getD Val.vNone
          else Val.vStr "Total"
        let (dks, lvls) ← pivotLevelLoop mc rest (i + 1)
        if !(isNaNVal level_key) then pure (level_key :: dks, level_label :: lvls)
        else pure (dks, lvls)
    | none => do
        let level_key ← colKeyGet mc i
        let i2 := if dim.label_field.isSome then i + 1 else i
        let level_label ← colKeyGet mc i2
        let (dks, lvls) ← pivotLevelLoop mc rest (i2 + 1)
        if !(isNaNVal level_key) then pure (level_key :: dks, level_label :: lvls)
        else pure (dks, lvls)

/-- Embedding of `DataTablesColumnIndexTransformer._render_column_level` (lines 163-209):
render the base metric/reference column, then walk the pivoted levels; the
kept level labels join into the title, the kept level keys are spliced into
the data path (between reference and metric when the base path has a dot,
else prepended). -/
def col_render_column_level (mc : ColKey) (s : DisplaySchema) : Option Column := do
  let column ← render_column_level mc s
  let i0 := if s.references.isSome then 2 else 1
  let (data_keys, levels) ← pivotLevelLoop mc (s.dimensions.drop 1) i0
  let metric_label ←
    if levels.isEmpty then pure column.title
    else do
      let joined ← pyJoinVals ", " levels
      pure (column.title ++ " (" ++ joined ++ ")")
  let data :=
    if !data_keys.isEmpty && strContainsDot column.data then
      pyReplaceDot column.data ("." ++ pyJoin "." (data_keys.map pyStr) ++ ".")
    else
      pyJoin "." (data_keys.map pyStr ++ [column.data])
  pure ⟨metric_label, data⟩

/-- The dimension-column list comprehension of `_render_columns`
(lines 48-51): one column per index level whose name is a schema dimension
(unknown level names are skipped by the `in` filter). -/
def dimColsLoop (dims : List (String × Dimension)) : List (Option String) → List Column
  | [] => []
  | none :: ns => dimColsLoop dims ns
  | some k :: ns =>
      match dictGet dims k with
      | some d => ⟨d.label, k ++ ".display"⟩ :: dimColsLoop dims ns
      | none => dimColsLoop dims ns

/-- The metric-column list comprehension of `_render_columns` (lines 53-54). -/
def colsLoop (rcl : ColKey → DisplaySchema → Option Column) (s : DisplaySchema) :
    List ColKey → Option (List Column)
  | [] => some []
  | mc :: rest => do
      let c ← rcl mc s
      let cs ← colsLoop rcl s rest
      pure (c :: cs)

/-- Embedding of `DataTablesRowIndexTransformer._render_columns` (lines 46-56),
parametrised by the `_render_column_level` hook. -/
def render_columns (rcl : ColKey → DisplaySchema → Option Column)
    (df : DataFrame) (s : DisplaySchema) : Option (List Column) := do
  let metCols ← colsLoop rcl s df.cols.colKeys
  pure (dimColsLoop s.dimensions df.index.names ++ metCols)

/-- The metric list comprehension shared by the first loop of
`_render_metric_data` (lines 127-128) and the base return of
`_recurse_dimensions` (lines 143-144): one formatted scalar per metric. -/
def metricsLoop (ser : Series) : List (String × String) → Option (List (Val × Cell))
  | [] => some []
  | (k, _) :: ms => do
      let v ← ser.getStr k
      let rest ← metricsLoop ser ms
      pure ((Val.vStr k, Cell.scalar (format_data_point v)) :: rest)

/-- Embedding of `DataTablesRowIndexTransformer._recurse_dimensions` (lines 139-144).
A truthy reference wraps the metric values in a dict keyed by the
reference; the inner `self._recurse_dimensions(df, dimensions, metrics)`
call carries the default `reference=None` and therefore returns the metric
list comprehension. -/
def row_recurse (ser : Series) (_dims : List (String × Dimension))
    (metrics : List (String × String)) (reference : Option String) :
    Option (List (Val × Cell)) :=
  match reference with
  | some r =>
      if r = "" then metricsLoop ser metrics
      else do
        let inner ← metricsLoop ser metrics
        pure [(Val.vStr r, Cell.nest (buildDict inner))]
  | none => metricsLoop ser metrics

/-- The per-level loop of the column transformer `_recurse_dimensions`
(lines 219-220), with the recursive continuation passed in. -/
def lvlLoopWith (f : Series → Option (List (Val × Cell))) (ser : Series) :
    List Val → Option (List (Val × Cell))
  | [] => some []
  | l :: ls => do
      let sub ← ser.selSnd l
      let inner ← f sub
      let tail ← lvlLoopWith f ser ls
      pure ((l, Cell.nest (buildDict inner)) :: tail)

/-- The `label_field` zip loop of the column transformer
`_recurse_dimensions` (lines 216-217). -/
def lfLoopWith (f : Series → Option (List (Val × Cell))) (ser : Series) :
    List (Val × Val) → Option (List (Val × Cell))
  | [] => some []
  | (k, disp) :: ps => do
      let sub ← ser.selSnd2 k disp
      let inner ← f sub
      let tail ← lfLoopWith f ser ps
      pure ((k, Cell.nest (buildDict inner)) :: tail)

/-- Truthiness of the `reference` argument (`None` or a string). -/
def optStrTruthy : Option String → Bool
  | some r => decide (r ≠ "")
  | none => false

/-- Embedding of `DataTablesColumnIndexTransformer._recurse_dimensions` (lines 211-220).
With a truthy reference or no remaining dimensions it behaves as the
superclass (whose inner self-call dispatches back here with
`reference=None`); otherwise it recurses through the pivoted levels, one
nested dict per distinct level value (zipping id and label levels when the
first remaining dimension has a `label_field` — which needs at least three
index levels, `zip(*df.index.levels[1:3])`). -/
def col_recurse (ser : Series) (dims : List (String × Dimension))
    (metrics : List (String × String)) (reference : Option String) :
    Option (List (Val × Cell)) :=
  if optStrTruthy reference || dims.isEmpty then
    match reference with
    | some r =>
        if r = "" then metricsLoop ser metrics
        else do
          let inner ← col_recurse ser dims metrics none
          pure [(Val.vStr r, Cell.nest (buildDict inner))]
    | none => metricsLoop ser metrics
  else
    match dims with
    | [] => metricsLoop ser metrics
    | (_, d0) :: rest =>
      match d0.label_field with
      | some _ =>
          if ((ser.keys.head?).map List.length).getD 0 < 3 then none
          else lfLoopWith (fun sub => col_recurse sub rest metrics none) ser
            ((ser.level 1).zip (ser.level 2))
      | none =>
          lvlLoopWith (fun sub => col_recurse sub rest metrics none) ser (ser.level 1)
termination_by 2 * dims.length + (match reference with
  | some r => if r = "" then 0 else 1
  | none => 0)
decreasing_by
  all_goals simp_all [List.isEmpty_iff]
  all_goals omega

/-- The reference loop of `_render_metric_data` (lines 130-133):
iterating the empty string followed by the reference keys, each recursing on
`df[reference]` with `reference or None`. -/
def refLoop (recurse : Series → List (String × Dimension) → List (String × String) →
      Option String → Option (List (Val × Cell)))
    (ser : Series) (dims : List (String × Dimension)) (metrics : List (String × String)) :
    List String → Option (List (Val × Cell))
  | [] => some []
  | r :: rs => do
      let sub ← ser.sel1 (Val.vStr r)
      let part ← recurse sub dims metrics (if r = "" then none else some r)
      let rest ← refLoop recurse ser dims metrics rs
      pure (part ++ rest)

/-- Embedding of `DataTablesRowIndexTransformer._render_metric_data` (lines 125-137),
parametrised by the `_recurse_dimensions` hook.  With a flat column index
the metric values are yielded directly first; a truthy `references` dict
then adds the unqualified pass and one pass per reference, otherwise a
single recursion runs. -/
def render_metric_data
    (recurse : Series → List (String × Dimension) → List (String × String) →
      Option String → Option (List (Val × Cell)))
    (ser : Series) (dims : List (String × Dimension)) (metrics : List (String × String))
    (references : Option (List (String × String))) : Option (List (Val × Cell)) := do
  let part1 ← if ser.multi then pure [] else metricsLoop ser metrics
  match references with
  | some refs =>
      if refs.isEmpty then do
        let part2 ← recurse ser dims metrics none
        pure (part1 ++ part2)
      else do
        let part2 ← refLoop recurse ser dims metrics ("" :: refs.map (fun p => p.1))
        pure (part1 ++ part2)
  | none => do
      let part2 ← recurse ser dims metrics none
      pure (part1 ++ part2)

/-- Embedding of `DataTablesRowIndexTransformer._render_dimension_data` (lines 106-123):
walk the row dimensions down the row-key tuple.  `label_field` consumes two
consecutive slots (display then value); `label_options` substitutes the
formatted value through the mapping falling back to Total; otherwise only the
formatted display is emitted. -/
def render_dimension_data (i : Nat) (idx : List Val) :
    List (String × Dimension) → Option (List (Val × Cell))
  | [] => some []
  | (key, dim) :: rest => do
      let raw ← idx.get? i
      let dimension_value := format_data_point raw
      match dim.label_field with
      | some _ => do
          let raw2 ← idx.get? (i + 1)
          let tail ← render_dimension_data (i + 2) idx rest
          pure ((Val.vStr key, Cell.dimDV dimension_value (format_data_point raw2)) :: tail)
      | none =>
        match dim.label_options with
        | some opts => do
            let tail ← render_dimension_data (i + 1) idx rest
            pure ((Val.vStr key,
                   Cell.dimDV (pyOr (dictGetV opts dimension_value dimension_value)
                                    (Val.vStr "Total"))
                              dimension_value) :: tail)
        | none => do
            let tail ← render_dimension_data (i + 1) idx rest
            pure ((Val.vStr key, Cell.dimD dimension_value) :: tail)

/-- The row loop of `_render_data` (lines 88-102). -/
def dataLoop
    (recurse : Series → List (String × Dimension) → List (String × String) →
      Option String → Option (List (Val × Cell)))
    (cols : Cols) (rowDims colDims : List (String × Dimension))
    (metrics : List (String × String)) (references : Option (List (String × String))) :
    List ((Val ⊕ List Val) × List Val) → Option (List (List (Val × Cell)))
  | [] => some []
  | (idx, rvals) :: rest => do
      let idxT := normIdx idx
      let dimE ← render_dimension_data 0 idxT rowDims
      let metE ← render_metric_data recurse (mkRowSeries cols rvals) colDims metrics references
      let tail ← dataLoop recurse cols rowDims colDims metrics references rest
      pure (buildDict (dimE ++ metE) :: tail)

/-- Embedding of `DataTablesRowIndexTransformer._render_data` (lines 83-104),
parametrised by the `_recurse_dimensions` hook: split the schema dimensions
into row dimensions (first `n`, the index arity) and column dimensions. -/
def render_data
    (recurse : Series → List (String × Dimension) → List (String × String) →
      Option String → Option (List (Val × Cell)))
    (df : DataFrame) (s : DisplaySchema) : Option (List (List (Val × Cell))) :=
  let n := df.index.nLevels
  let rowDims := s.dimensions.take n
  let colDims := s.dimensions.drop n
  dataLoop recurse df.cols rowDims colDims s.metrics s.references (df.index.iterIdx.zip df.rows)

/-- Embedding of `DataTablesRowIndexTransformer.transform` (lines 33-40), with the three
overridable hooks passed explicitly (the subclass overrides exactly
`_prepare_dataframe`, `_render_column_level` and `_recurse_dimensions`). -/
def transformWith (prepare : DataFrame → List (String × Dimension) → DataFrame)
    (rcl : ColKey → DisplaySchema → Option Column)
    (recurse : Series → List (String × Dimension) → List (String × String) →
      Option String → Option (List (Val × Cell)))
    (df : DataFrame) (s : DisplaySchema) : Option TableOut := do
  let dfp := prepare df s.dimensions
  let cols ← render_columns rcl dfp s
  let data ← render_data recurse dfp s
  pure ⟨cols, data⟩

/-- Embedding of `DataTablesRowIndexTransformer.transform`. -/
def rowTransform : DataFrame → DisplaySchema → Option TableOut :=
  transformWith prepare_row render_column_level row_recurse

/-- Embedding of `DataTablesColumnIndexTransformer.transform` (inherited body with the
three overridden hooks). -/
def colTransform : DataFrame → DisplaySchema → Option TableOut :=
  transformWith prepare_col col_render_column_level col_recurse

/-- CSV quoting (pandas `QUOTE_MINIMAL`): quote a field containing the
separator, a quote or a line break, doubling inner quotes. -/
def csvQuote (s : String) : String :=
  if s.data.any (fun c => decide (c = ',' ∨ c = '"' ∨ c = '\n' ∨ c = '\r')) then
    "\"" ++ ⟨s.data.flatMap (fun ch => if ch = '"' then ['"', '"'] else [ch])⟩ ++ "\""
  else s

/-- A scalar as `to_csv` writes it: NaN and `None` as empty, infinities as
`inf`/`-inf`, numbers and the rest via `str`. -/
def csvCell : Val → String
  | .vStr s => csvQuote s
  | .vNone => ""
  | .vFloat .nan => ""
  | v => csvQuote (pyStr v)

/-- Join CSV lines, each terminated by a newline. -/
def toCsvLines (lines : List String) : String :=
  lines.foldr (fun l acc => l ++ "\n" ++ acc) ""

/-- Header cells for the column index (flat labels; a MultiIndex column
label prints as its tuple — not exercised by any property proved here). -/
def colHeaderCells : Cols → List String
  | .flat ks => ks
  | .multi _ ks => ks.map (fun t => "(" ++ pyJoin ", " (t.map pyStr) ++ ")")

/-- Embedding of `csv_df.to_csv(index=False)`: header line of column labels, then one
line per row, no index cells. -/
def toCsvNoIndex (df : DataFrame) : String :=
  toCsvLines (pyJoin "," ((colHeaderCells df.cols).map csvQuote)
    :: df.rows.map (fun r => pyJoin "," (r.map csvCell)))

/-- Index cells of each row (one per level). -/
def RowIndex.rowKeyCells : RowIndex → List (List Val)
  | .range n => (List.range n).map (fun i => [Val.vInt i])
  | .flat _ ks => ks.map (fun v => [v])
  | .multi _ ks => ks

/-- Embedding of `csv_df.to_csv(index_label=labels)`: header of the index labels then
the column labels, then one line per row of index cells then data cells. -/
def toCsvWithIndex (df : DataFrame) (labels : List String) : String :=
  toCsvLines (pyJoin "," ((labels ++ colHeaderCells df.cols).map csvQuote)
    :: (df.index.rowKeyCells.zip df.rows).map
        (fun p => pyJoin "," ((p.1 ++ p.2).map csvCell)))

/-- Embedding of `CSVRowIndexTransformer._format_columns` (lines 275-276):
`dataframe.rename(columns=lambda metric: metrics.get(metric, metric))` — a
fresh frame whose column labels are substituted through the metric dict,
unknown labels passing through unchanged. -/
def renameColLabel (metrics : List (String × String)) : Val → Val
  | .vStr s => .vStr ((dictGet metrics s).getD s)
  | v => v

def renameCols (metrics : List (String × String)) : Cols → Cols
  | .flat ks => .flat (ks.map (fun k => (dictGet metrics k).getD k))
  | .multi ns ks => .multi ns (ks.map (fun t => t.map (renameColLabel metrics)))

def csvRowFormatColumns (df : DataFrame) (metrics : List (String × String))
    (_dims : List (String × Dimension)) : DataFrame :=
  { df with cols := renameCols metrics df.cols }

/-- Embedding of `CSVRowIndexTransformer.get_level_values` (lines 245-255):
`label_options` first (substitute, then format), then `label_field` (read
the companion level), else format the own values of the level. -/
def get_level_values (csv_df : DataFrame) (key : String) (dim : Dimension) :
    Option (List Val) :=
  match dim.label_options with
  | some opts => do
      let vs ← csv_df.index.levelValues key
      pure (vs.map (fun v => format_data_point (dictGetV opts v v)))
  | none =>
    match dim.label_field with
    | some lf => do
        let vs ← csv_df.index.levelValues lf
        pure (vs.map format_data_point)
    | none => do
        let vs ← csv_df.index.levelValues key
        pure (vs.map format_data_point)

/-- Rebuilding the index from the per-dimension arrays
(`csv_df.index = [...]; csv_df.index.names = [...]`). -/
def mkIndexFromArrays (names : List String) (arrays : List (List Val)) : RowIndex :=
  match names, arrays with
  | [n], [a] => .flat (some n) a
  | ns, arrs =>
      let len : Nat := ((arrs.head?).map List.length).getD 0
      .multi (ns.map some)
        ((List.range len).map (fun i => arrs.filterMap (fun a => a.get? i)))

/-- Embedding of `CSVRowIndexTransformer._format_index` (lines 236-243): relabel the
index of the working copy with the formatted display labels of each row
dimension (all dimensions for a MultiIndex, else the first only). -/
def format_index (csv_df : DataFrame) (dims : List (String × Dimension)) :
    Option DataFrame := do
  let levels := if csv_df.index.isMulti then dims else dims.take 1
  let arrays ← levels.mapM (fun p => get_level_values csv_df p.1 p.2)
  pure { csv_df with index := mkIndexFromArrays (levels.map (fun p => p.1)) arrays }

/-- Embedding of `CSVRowIndexTransformer._row_dimension_labels` (lines 278-280). -/
def row_dimension_labels (dims : List (String × Dimension)) : List String :=
  dims.map (fun p => p.2.label)

/-- Embedding of `CSVColumnIndexTransformer._row_dimension_labels` (lines 292-294):
only the first dimension stays in the row index. -/
def col_row_dimension_labels (dims : List (String × Dimension)) : List String :=
  (dims.take 1).map (fun p => p.2.label)

/-- Embedding of `CSVRowIndexTransformer.transform` (lines 224-234): rename the columns,
serialize without index for a `RangeIndex` (zero dimensions), else relabel
the index and serialize with the dimension labels as index headers. -/
def csvRowTransform (df : DataFrame) (s : DisplaySchema) : Option String :=
  let csv_df := csvRowFormatColumns df s.metrics s.dimensions
  if df.index.isRange then some (toCsvNoIndex csv_df)
  else do
    let csv2 ← format_index csv_df s.dimensions
    pure (toCsvWithIndex csv2 (row_dimension_labels s.dimensions))

/-- Embedding of `CSVColumnIndexTransformer._format_column_labels` (lines 296-321): for
each pivoted column tuple, substitute each level value through its
`label_options` of its dimension, format it, drop it when `None`, and join the
survivors into `"<metric label> (<l1>, <l2>)"`. -/
def format_column_labels (csv_df : DataFrame) (metrics : List (String × String))
    (dims : List (String × Dimension)) : Option (List String) :=
  let colNames := csv_df.cols.names
  csv_df.cols.colKeys.mapM (fun ck => do
    let idx := match ck with
      | .flat k => k.data.map (fun c => Val.vStr ⟨[c]⟩)
      | .multi t => t
    let metric_value ← idx.head?
    let dimension_values := idx.drop 1
    let dimension_labels ← ((colNames.drop 1).zip dimension_values).mapM
      (fun p => do
        let levelName ← p.1
        let dim ← dictGet dims levelName
        let dimension_label :=
          match dim.label_options with
          | some opts => dictGetV opts p.2 p.2
          | none => p.2
        pure (format_data_point dimension_label))
    let kept := dimension_labels.filter (fun l => decide (l ≠ Val.vNone))
    let mlab ← dictGetV' metrics metric_value
    if kept.isEmpty then pure mlab
    else do
      let joined ← pyJoinVals ", " kept
      pure (mlab ++ " (" ++ joined ++ ")"))

/-- Embedding of `CSVColumnIndexTransformer._format_columns` (lines 284-290): with more
than one dimension, pivot via the column transformer preparation and
synthesize flat header labels; else fall back to the row serializer
rename. -/
def csvColFormatColumns (df : DataFrame) (metrics : List (String × String))
    (dims : List (String × Dimension)) : Option DataFrame :=
  if 1 < dims.length then do
    let csv_df := prepare_col df dims
    let labels ← format_column_labels csv_df metrics dims
    pure { csv_df with cols := .flat labels }
  else some (csvRowFormatColumns df metrics dims)

/-- Embedding of `CSVColumnIndexTransformer.transform` (inherited from the row
serializer, with `_format_columns` and `_row_dimension_labels` overridden). -/
def csvColTransform (df : DataFrame) (s : DisplaySchema) : Option String := do
  let csv_df ← csvColFormatColumns df s.metrics s.dimensions
  if df.index.isRange then pure (toCsvNoIndex csv_df)
  else do
    let csv2 ← format_index csv_df s.dimensions
    pure (toCsvWithIndex csv2 (col_row_dimension_labels s.dimensions))

/-!
Heap-instrumented variants for the frame-effect property: each pandas call
the source makes is tagged as an allocation (`replace`, `rename`,
`unstack` return fresh frames) or an in-place mutation (`csv_df.index = `,
`csv_df.index.names = `, `csv_df.columns = ` assign to the object they are
called on).  The heap is a list of frames; the caller frame is id 0, and
every id is the position at which the frame was allocated.
-/

abbrev Heap := List DataFrame

/-- Heap version of `DataTablesRowIndexTransformer.transform`: the only
frame operation is the allocating `replace` inside `_prepare_dataframe`. -/
def rowTransformH (df0 : DataFrame) (s : DisplaySchema) : Option TableOut × Heap :=
  let dfp := prepare_row df0 s.dimensions
  (rowTransform df0 s, [df0, dfp])

/-- Heap version of `DataTablesColumnIndexTransformer.transform`:
`_prepare_dataframe` allocates the replaced frame and (with two or more
dimensions) the unstacked frame. -/
def colTransformH (df0 : DataFrame) (s : DisplaySchema) : Option TableOut × Heap :=
  let rep := replaceInfNan df0
  if 2 > s.dimensions.length then (colTransform df0 s, [df0, rep])
  else (colTransform df0 s, [df0, rep, rep.unstack (unstackLevels s.dimensions)])

/-- Heap version of `CSVRowIndexTransformer.transform`: `rename` allocates
the working copy (id 1); `_format_index` then mutates that copy in place
(its level arrays are computed before the assignment, so a failing level
lookup raises before any mutation). -/
def csvRowTransformH (df0 : DataFrame) (s : DisplaySchema) : Option String × Heap :=
  let csv1 := csvRowFormatColumns df0 s.metrics s.dimensions
  if df0.index.isRange then (some (toCsvNoIndex csv1), [df0, csv1])
  else
    match format_index csv1 s.dimensions with
    | none => (none, [df0, csv1])
    | some csv2 =>
        (some (toCsvWithIndex csv2 (row_dimension_labels s.dimensions)),
         [df0, csv1].set 1 csv2)

/-- Heap version of `CSVColumnIndexTransformer.transform`: with more than
one dimension `_format_columns` allocates the replaced and unstacked frames
and mutates the columns of the unstacked copy in place; else it renames into a
fresh copy.  `_format_index` then mutates the working copy. -/
def csvColTransformH (df0 : DataFrame) (s : DisplaySchema) : Option String × Heap :=
  if 1 < s.dimensions.length then
    let rep := replaceInfNan df0
    let un := if 2 > s.dimensions.length then rep else rep.unstack (unstackLevels s.dimensions)
    match format_column_labels un s.metrics s.dimensions with
    | none => (none, [df0, rep, un])
    | some labels =>
        let csv1 := { un with cols := Cols.flat labels }
        let h1 := [df0, rep, csv1]
        if df0.index.isRange then (some (toCsvNoIndex csv1), h1)
        else
          match format_index csv1 s.dimensions with
          | none => (none, h1)
          | some csv2 =>
              (some (toCsvWithIndex csv2 (col_row_dimension_labels s.dimensions)),
               h1.set 2 csv2)
  else
    let csv1 := csvRowFormatColumns df0 s.metrics s.dimensions
    if df0.index.isRange then (some (toCsvNoIndex csv1), [df0, csv1])
    else
      match format_index csv1 s.dimensions with
      | none => (none, [df0, csv1])
      | some csv2 =>
          (some (toCsvWithIndex csv2 (col_row_dimension_labels s.dimensions)),
           [df0, csv1].set 1 csv2)

/-- Well-formedness of the row index used by the pivoting equivalence: a
real pandas MultiIndex always has at least one level. -/
def DataFrame.wfIdx (df : DataFrame) : Bool :=
  match df.index with
  | .multi names _ => !names.isEmpty
  | _ => true

/-! ### Helper lemmas -/

theorem strEqOfData {a b : String} (h : a.data = b.data) : a = b := by
  cases a; cases b; exact congrArg String.mk h

theorem strDataAppend (a b : String) : (a ++ b).data = a.data ++ b.data := rfl

theorem replaceInfVal_idem (v : Val) : replaceInfVal (replaceInfVal v) = replaceInfVal v := by
  cases v with
  | vFloat f => cases f <;> rfl
  | _ => rfl

theorem replaceInfNan_idem (df : DataFrame) :
    replaceInfNan (replaceInfNan df) = replaceInfNan df := by
  simp [replaceInfNan, List.map_map, Function.comp_def, replaceInfVal_idem]

theorem replaceInfVal_not_inf (v : Val) :
    replaceInfVal v ≠ Val.vFloat .inf ∧ replaceInfVal v ≠ Val.vFloat .ninf := by
  cases v with
  | vFloat f => cases f <;> simp [replaceInfVal]
  | _ => simp [replaceInfVal]

theorem flatMapDot_of_noDot (r : List Char) :
    ∀ (l : List Char), (∀ c ∈ l, c ≠ '.') →
      l.flatMap (fun ch => if ch = '.' then r else [ch]) = l := by
  intro l
  induction l with
  | nil => intro; rfl
  | cons c cs ih =>
      intro h
      have hc : c ≠ '.' := h c (List.mem_cons_self c cs)
      simp only [List.flatMap_cons, if_neg hc, List.singleton_append]
      rw [ih (fun x hx => h x (List.mem_cons_of_mem c hx))]

theorem noDot_of_notContains {a : String} (h : strContainsDot a = false) :
    ∀ c ∈ a.data, c ≠ '.' := by
  intro c hc
  have := List.any_eq_false.mp h c hc
  simpa using this

theorem pyReplaceDot_mid (a b m : String)
    (ha : strContainsDot a = false) (hb : strContainsDot b = false) :
    pyReplaceDot (a ++ "." ++ b) ("." ++ m ++ ".") = a ++ "." ++ m ++ "." ++ b := by
  apply strEqOfData
  show ((a ++ "." ++ b).data).flatMap _ = _
  have hdot : ("." ++ m ++ ".").data = '.' :: m.data ++ ['.'] := by
    simp [strDataAppend]
  have h1 : (a ++ "." ++ b).data = a.data ++ '.' :: b.data := by
    simp [strDataAppend]
  rw [h1]
  rw [List.flatMap_append]
  rw [flatMapDot_of_noDot _ _ (noDot_of_notContains ha)]
  simp only [List.flatMap_cons, if_pos rfl]
  rw [flatMapDot_of_noDot _ _ (noDot_of_notContains hb)]
  have h2 : (a ++ "." ++ m ++ "." ++ b).data
      = a.data ++ ('.' :: m.data ++ ['.']) ++ b.data := by
    simp [strDataAppend]
  rw [hdot, h2]
  simp

theorem strContainsDot_append_dot (a b : String) :
    strContainsDot (a ++ "." ++ b) = true := by
  have h1 : (a ++ "." ++ b).data = a.data ++ '.' :: b.data := by
    simp [strDataAppend]
  simp [strContainsDot, h1]

theorem mapGetD_of_map_some {α : Type} (f : String → Option α) (g : String → α) :
    ∀ (ks : List String) (labs : List α), ks.map f = labs.map some →
      ks.map (fun k => (f k).getD (g k)) = labs := by
  intro ks
  induction ks with
  | nil =>
      intro labs h
      cases labs with
      | nil => rfl
      | cons _ _ => simp at h
  | cons k ks ih =>
      intro labs h
      cases labs with
      | nil => simp at h
      | cons l ls =>
          simp only [List.map_cons, List.cons.injEq] at h
          simp [h.1, ih ls h.2]

/-! ### Claim theorems -/

/-- C10: the shared scalar formatter `_format_data_point` is total and
type-directed: strings pass through unchanged; a timestamp at exactly
midnight renders as the date-only string and any other timestamp as the
full date-time string; `None` and float NaN map to `None`; an `np.int64`
becomes a plain int; and every other value (plain ints, bools, finite
floats and the infinities) is returned unchanged. -/
theorem spec_c10_format_data_point :
    (∀ s, format_data_point (.vStr s) = .vStr s) ∧
    (∀ y m d, format_data_point (.vTs y m d 0 0 0) = .vStr (fmtDate y m d)) ∧
    (∀ y m d hh mi ss, ¬(hh = 0 ∧ mi = 0 ∧ ss = 0) →
        format_data_point (.vTs y m d hh mi ss) = .vStr (fmtDateTime y m d hh mi ss)) ∧
    (format_data_point .vNone = .vNone) ∧
    (format_data_point (.vFloat .nan) = .vNone) ∧
    (∀ n, format_data_point (.vInt64 n) = .vInt n) ∧
    (∀ n, format_data_point (.vInt n) = .vInt n) ∧
    (∀ b, format_data_point (.vBool b) = .vBool b) ∧
    (format_data_point (.vFloat .inf) = .vFloat .inf) ∧
    (format_data_point (.vFloat .ninf) = .vFloat .ninf) ∧
    (∀ q, format_data_point (.vFloat (.fin q)) = .vFloat (.fin q)) := by
  refine ⟨fun s => rfl, fun y m d => by simp [format_data_point],
    fun y m d hh mi ss h => by simp [format_data_point, h], rfl, rfl,
    fun n => rfl, fun n => rfl, fun b => rfl, rfl, rfl, fun q => rfl⟩

/-- Witness for C10 at a non-midnight timestamp. -/
theorem spec_c10_witness :
    ¬((13 : Nat) = 0 ∧ (4 : Nat) = 0 ∧ (5 : Nat) = 0) ∧
    format_data_point (.vTs 2020 1 2 13 4 5) = .vStr (fmtDateTime 2020 1 2 13 4 5) :=
  ⟨by decide, spec_c10_format_data_point.2.2.1 2020 1 2 13 4 5 (by decide)⟩

/-- C4: row-oriented column definitions. A metric without references gives
`{title: metric.label, data: metric.key}`; a metric under an active
reference gives `{title: "<metric.label> <reference.label>",
data: "<reference.key>.<metric.key>"}`; and the unqualified metric column
while references are declared keeps the bare metric key as its data path. -/
theorem spec_c4_metric_reference_columns :
    (∀ (s : DisplaySchema) k lab, s.references = none → dictGet s.metrics k = some lab →
        render_column_level (.flat k) s = some ⟨lab, k⟩) ∧
    (∀ (s : DisplaySchema) refs rk mk rlab mlab, s.references = some refs → rk ≠ "" →
        dictGet s.metrics mk = some mlab → dictGet refs rk = some rlab →
        render_column_level (.multi [.vStr rk, .vStr mk]) s =
          some ⟨mlab ++ " " ++ rlab, rk ++ "." ++ mk⟩) ∧
    (∀ (s : DisplaySchema) refs mk mlab, s.references = some refs →
        dictGet s.metrics mk = some mlab →
        render_column_level (.multi [.vStr "", .vStr mk]) s = some ⟨mlab, mk⟩) := by
  refine ⟨?_, ?_, ?_⟩
  · intro s k lab href hmet
    simp [render_column_level, hmet]
  · intro s refs rk mk rlab mlab href hrk hmet href2
    simp [render_column_level, href, Val.truthy, hrk, dictGetV', hmet, href2,
      pyStr, pyJoin]
  · intro s refs mk mlab href hmet
    simp [render_column_level, href, Val.truthy, dictGetV', hmet, pyStr, pyJoin]

/-- Witness for C4 (all three column shapes at a concrete schema). -/
theorem spec_c4_witness :
    render_column_level (.flat "votes") ⟨[("votes", "Votes")], [], none⟩ =
      some ⟨"Votes", "votes"⟩ ∧
    render_column_level (.multi [.vStr "eoe", .vStr "votes"])
        ⟨[("votes", "Votes")], [], some [("eoe", "EoE")]⟩ =
      some ⟨"Votes" ++ " " ++ "EoE", "eoe" ++ "." ++ "votes"⟩ ∧
    render_column_level (.multi [.vStr "", .vStr "votes"])
        ⟨[("votes", "Votes")], [], some [("eoe", "EoE")]⟩ = some ⟨"Votes", "votes"⟩ :=
  ⟨spec_c4_metric_reference_columns.1 _ "votes" "Votes" rfl rfl,
   spec_c4_metric_reference_columns.2.1 _ [("eoe", "EoE")] "eoe" "votes" "EoE" "Votes"
     rfl (by decide) rfl rfl,
   spec_c4_metric_reference_columns.2.2 _ [("eoe", "EoE")] "votes" "Votes" rfl rfl⟩

/-- C5: a `label_field` dimension consumes two consecutive row-key slots:
the emitted `display` is the formatted first slot, the emitted `value` is
the formatted second slot, and the remaining dimensions continue from the
position after both consumed slots. -/
theorem spec_c5_label_field_two_slots (i : Nat) (idx : List Val) (key : String)
    (d : Dimension) (lf : String) (rest : List (String × Dimension)) (a b : Val)
    (hlf : d.label_field = some lf)
    (ha : idx.get? i = some a) (hb : idx.get? (i + 1) = some b) :
    render_dimension_data i idx ((key, d) :: rest) =
      (render_dimension_data (i + 2) idx rest).map
        (fun tail =>
          (Val.vStr key, Cell.dimDV (format_data_point a) (format_data_point b)) :: tail) := by
  simp only [render_dimension_data, ha, hb, hlf, Option.bind_some]
  cases render_dimension_data (i + 2) idx rest <;> rfl

/-- Witness for C5 at a concrete two-slot row key. -/
theorem spec_c5_witness :
    ([Val.vInt 1, Val.vStr "Dem"].get? 0 = some (Val.vInt 1)) ∧
    ([Val.vInt 1, Val.vStr "Dem"].get? 1 = some (Val.vStr "Dem")) ∧
    render_dimension_data 0 [Val.vInt 1, Val.vStr "Dem"]
        [("candidate", ⟨"Candidate", some "candidate_name", none⟩)] =
      (render_dimension_data 2 [Val.vInt 1, Val.vStr "Dem"] []).map
        (fun tail =>
          (Val.vStr "candidate",
           Cell.dimDV (format_data_point (Val.vInt 1))
                      (format_data_point (Val.vStr "Dem"))) :: tail) :=
  ⟨rfl, rfl,
   spec_c5_label_field_two_slots 0 [Val.vInt 1, Val.vStr "Dem"] "candidate"
     ⟨"Candidate", some "candidate_name", none⟩ "candidate_name" [] (Val.vInt 1)
     (Val.vStr "Dem") rfl rfl rfl⟩

/-- C8: with zero dimensions (a `RangeIndex`), the CSV row serializer emits
no index column at all: the header line holds exactly the metric labels and
every data line holds exactly the metric values. -/
theorem spec_c8_zero_dim_csv (n : Nat) (ks : List String) (rows : List (List Val))
    (s : DisplaySchema) (labs : List String)
    (h : ks.map (fun k => dictGet s.metrics k) = labs.map some) :
    csvRowTransform ⟨.range n, .flat ks, rows⟩ s =
      some (toCsvLines (pyJoin "," (labs.map csvQuote)
        :: rows.map (fun r => pyJoin "," (r.map csvCell)))) := by
  have hl : ks.map (fun k => (dictGet s.metrics k).getD k) = labs :=
    mapGetD_of_map_some (fun k => dictGet s.metrics k) id ks labs h
  simp [csvRowTransform, csvRowFormatColumns, renameCols, RowIndex.isRange,
    toCsvNoIndex, colHeaderCells, hl]

/-- Witness for C8 at a concrete two-metric frame. -/
theorem spec_c8_witness :
    (["votes", "wins"].map
        (fun k => dictGet [("votes", "Votes"), ("wins", "Wins")] k) =
      ["Votes", "Wins"].map some) ∧
    csvRowTransform
        ⟨.range 2, .flat ["votes", "wins"],
         [[Val.vInt 10, Val.vInt 1], [Val.vInt 20, Val.vInt 2]]⟩
        ⟨[("votes", "Votes"), ("wins", "Wins")], [], none⟩ =
      some (toCsvLines (pyJoin "," (["Votes", "Wins"].map csvQuote)
        :: [[Val.vInt 10, Val.vInt 1], [Val.vInt 20, Val.vInt 2]].map
            (fun r => pyJoin "," (r.map csvCell)))) :=
  ⟨rfl,
   spec_c8_zero_dim_csv 2 ["votes", "wins"]
     [[Val.vInt 10, Val.vInt 1], [Val.vInt 20, Val.vInt 2]]
     ⟨[("votes", "Votes"), ("wins", "Wins")], [], none⟩ ["Votes", "Wins"] rfl⟩

/-- C1 counterexample: a raw value absent from the `label_options` mapping
but truthy is displayed as itself — a label that is neither in the option
mapping nor the literal `"Total"` — refuting the claim that only mapped
labels or `"Total"` are ever emitted. -/
theorem spec_c1_counterexample :
    render_dimension_data 0 [Val.vStr "z"]
        [("party", ⟨"Party", none, some [(Val.vStr "d", Val.vStr "Democrat")]⟩)] =
      some [(Val.vStr "party", Cell.dimDV (Val.vStr "z") (Val.vStr "z"))] ∧
    Val.vStr "z" ≠ Val.vStr "Total" ∧
    Val.vStr "z" ∉ [(Val.vStr "d", Val.vStr "Democrat")].map Prod.snd :=
  ⟨rfl, by decide, by decide⟩

/-- C1 amended: for a `label_options` dimension the emitted display label
is always either a label from the option mapping, the literal `"Total"`
(when the looked-up value is falsy), or the formatted raw value itself
(when the raw value is unmapped and truthy) — the emitted `value` field
being that formatted raw value. -/
theorem spec_c1_label_options_display (key : String) (d : Dimension)
    (opts : List (Val × Val)) (idx : List Val) (disp v : Val) (tail : List (Val × Cell))
    (hlf : d.label_field = none) (hlo : d.label_options = some opts)
    (hout : render_dimension_data 0 idx [(key, d)] =
      some ((Val.vStr key, Cell.dimDV disp v) :: tail)) :
    disp ∈ opts.map Prod.snd ∨ disp = Val.vStr "Total" ∨ disp = v := by
  cases ha : idx[0]? with
  | none => simp [render_dimension_data, ha, hlf, hlo] at hout
  | some raw =>
      have hcomp : render_dimension_data 0 idx [(key, d)] =
          some [(Val.vStr key,
            Cell.dimDV (pyOr (dictGetV opts (format_data_point raw) (format_data_point raw))
                             (Val.vStr "Total"))
                       (format_data_point raw))] := by
        simp [render_dimension_data, ha, hlf, hlo]
      rw [hcomp] at hout
      injection hout with h1
      injection h1 with hhead _
      injection hhead with _ hcell
      injection hcell with hdisp hv
      subst hdisp
      unfold pyOr dictGetV
      cases hfind : opts.find? (fun p => decide (p.1 = format_data_point raw)) with
      | some p =>
          by_cases ht : p.2.truthy
          · left
            simp only [hfind, if_pos ht]
            exact List.mem_map.mpr ⟨p, List.mem_of_find?_eq_some hfind, rfl⟩
          · right; left
            simp [hfind, ht]
      | none =>
          by_cases ht : (format_data_point raw).truthy
          · right; right
            simp only [hfind]
            rw [← hv]
            simp [ht]
          · right; left
            simp only [hfind]
            simp [ht]

/-- Witness for the amended C1 at a mapped raw value. -/
theorem spec_c1_witness :
    Val.vStr "Democrat" ∈ [(Val.vStr "d", Val.vStr "Democrat")].map Prod.snd ∨
    Val.vStr "Democrat" = Val.vStr "Total" ∨ Val.vStr "Democrat" = Val.vStr "d" :=
  spec_c1_label_options_display "party"
    ⟨"Party", none, some [(Val.vStr "d", Val.vStr "Democrat")]⟩
    [(Val.vStr "d", Val.vStr "Democrat")] [Val.vStr "d"]
    (Val.vStr "Democrat") (Val.vStr "d") [] rfl rfl rfl

/-- C2 counterexample: a column key absent from the metric schema is not an
error for the CSV row serializer — it is passed through unlabelled as the
raw key in the header — refuting the claim that every render/serialize
operation fails loudly on unknown keys. -/
theorem spec_c2_counterexample :
    csvRowTransform ⟨.range 1, .flat ["mystery"], [[Val.vInt 1]]⟩
        ⟨[("votes", "Votes")], [], none⟩ = some "mystery\n1\n" := rfl

/-- C2 amended: the nested renderers do fail loudly — an unknown metric
column key aborts `_render_column_level` with a `KeyError` — but the CSV
serializers substitute the raw key itself as the column label and complete
normally. -/
theorem spec_c2_unknown_keys (s : DisplaySchema) (metrics : List (String × String))
    (k : String) (v : Val)
    (h1 : dictGet s.metrics k = none) (h2 : dictGet metrics k = none) :
    render_column_level (.flat k) s = none ∧
    csvRowTransform ⟨.range 1, .flat [k], [[v]]⟩ ⟨metrics, [], none⟩ =
      some (toCsvLines [csvQuote k, csvCell v]) := by
  constructor
  · simp [render_column_level, h1]
  · simp [csvRowTransform, csvRowFormatColumns, renameCols, RowIndex.isRange,
      toCsvNoIndex, colHeaderCells, h2, pyJoin]

/-- Witness for the amended C2 at a concrete unknown key. -/
theorem spec_c2_witness :
    render_column_level (.flat "mystery") ⟨[("votes", "Votes")], [], none⟩ = none ∧
    csvRowTransform ⟨.range 1, .flat ["mystery"], [[Val.vInt 1]]⟩
        ⟨[("votes", "Votes")], [], none⟩ =
      some (toCsvLines [csvQuote "mystery", csvCell (Val.vInt 1)]) :=
  spec_c2_unknown_keys ⟨[("votes", "Votes")], [], none⟩ [("votes", "Votes")]
    "mystery" (Val.vInt 1) rfl rfl

/-- C7 counterexample: the CSV row serializer never replaces the
infinities — a float `inf` cell is written as the text `inf`, while the
claimed replace-before-format behaviour would have produced the
missing-value (blank) cell shown by the second equation. -/
theorem spec_c7_counterexample :
    csvRowTransform ⟨.range 1, .flat ["votes"], [[Val.vFloat .inf]]⟩
        ⟨[("votes", "Votes")], [], none⟩ = some "Votes\ninf\n" ∧
    csvRowTransform (replaceInfNan ⟨.range 1, .flat ["votes"], [[Val.vFloat .inf]]⟩)
        ⟨[("votes", "Votes")], [], none⟩ = some "Votes\n\n" :=
  ⟨rfl, rfl⟩

/-- C7 amended: the nested renderers normalize the floating infinities to
NaN before rendering (pre-replacing the input is a no-op for them, and the
replaced frame holds no infinity), and no non-finite value makes them
raise; the CSV row serializer instead writes infinities through as
`inf` text. -/
theorem spec_c7_infinity_replacement :
    (∀ df s, rowTransform (replaceInfNan df) s = rowTransform df s) ∧
    (∀ df s, colTransform (replaceInfNan df) s = colTransform df s) ∧
    (∀ df, (replaceInfNan df).rows.all
      (fun r => r.all (fun v => decide (v ≠ .vFloat .inf ∧ v ≠ .vFloat .ninf))) = true) ∧
    csvRowTransform ⟨.range 1, .flat ["votes"], [[Val.vFloat .inf]]⟩
        ⟨[("votes", "Votes")], [], none⟩ = some "Votes\ninf\n" := by
  refine ⟨?_, ?_, ?_, rfl⟩
  · intro df s
    unfold rowTransform transformWith prepare_row
    rw [replaceInfNan_idem]
  · intro df s
    unfold colTransform transformWith prepare_col prepare_row
    rw [replaceInfNan_idem]
  · intro df
    simp only [replaceInfNan, List.all_eq_true]
    intro r hr v hv
    simp only [List.mem_map] at hr
    obtain ⟨r0, _, hr0⟩ := hr
    subst hr0
    simp only [List.mem_map] at hv
    obtain ⟨v0, _, hv0⟩ := hv
    subst hv0
    exact decide_eq_true (replaceInfVal_not_inf v0)

/-- C9: no transform mutates the caller frame. In the heap-instrumented
semantics — where `replace`, `rename` and `unstack` allocate fresh frames
and the attribute assignments (`csv_df.index = `, `csv_df.columns = `)
mutate the object they are applied to — the caller frame (heap id 0) is
unchanged after every renderer and serializer. -/
theorem spec_c9_no_input_mutation (df : DataFrame) (s : DisplaySchema) :
    ((rowTransformH df s).2.get? 0 = some df) ∧
    ((colTransformH df s).2.get? 0 = some df) ∧
    ((csvRowTransformH df s).2.get? 0 = some df) ∧
    ((csvColTransformH df s).2.get? 0 = some df) := by
  refine ⟨rfl, ?_, ?_, ?_⟩
  · unfold colTransformH
    split <;> rfl
  · unfold csvRowTransformH
    by_cases hir : df.index.isRange = true
    · simp [hir]
    · cases hfi : format_index (csvRowFormatColumns df s.metrics s.dimensions)
          s.dimensions <;>
        simp [hir, hfi, List.set]
  · unfold csvColTransformH
    by_cases hd : 1 < s.dimensions.length
    · have h2 : ¬ 2 > s.dimensions.length := by omega
      cases hfl : format_column_labels
          ((replaceInfNan df).unstack (unstackLevels s.dimensions))
          s.metrics s.dimensions with
      | none => simp [hd, h2, hfl]
      | some labels =>
          by_cases hir : df.index.isRange = true
          · simp [hd, h2, hfl, hir]
          · cases hfi : format_index
                { index := ((replaceInfNan df).unstack (unstackLevels s.dimensions)).index,
                  cols := Cols.flat labels,
                  rows := ((replaceInfNan df).unstack (unstackLevels s.dimensions)).rows }
                s.dimensions <;>
              simp [hd, h2, hfl, hir, hfi, List.set]
    · by_cases hir : df.index.isRange = true
      · simp [hd, hir]
      · cases hfi : format_index (csvRowFormatColumns df s.metrics s.dimensions)
            s.dimensions <;>
          simp [hd, hir, hfi, List.set]

theorem pyJoinVals_single (sep x : String) : pyJoinVals sep [Val.vStr x] = some x := rfl

theorem isNaNVal_nan : isNaNVal (Val.vFloat .nan) = true := rfl

theorem pyStr_vStr (s : String) : pyStr (Val.vStr s) = s := rfl

/-- C6: in the pivoted column-header construction, a pivoted level whose
raw value is NaN is dropped from both the title and the data path (first
conjunct, and third with a second kept level); a kept level — including one
whose substituted label is the totals label, since keeping depends only on
the raw value — contributes its label to the title
`"<metric.label> (<l1>, <l2>, ...)"` and has its raw value spliced into the
data path after the reference key and before the metric key (second
conjunct), or prepended before the metric key when no reference segment
exists (fourth conjunct). -/
theorem spec_c6_pivot_levels :
    (∀ (metrics refs : List (String × String)) (dim0 : String × Dimension)
        (k1 lab1 : String) (opts : List (Val × Val)) (rk mk mlab rlab : String),
        rk ≠ "" → dictGet metrics mk = some mlab → dictGet refs rk = some rlab →
        col_render_column_level (.multi [.vStr rk, .vStr mk, .vFloat .nan])
            ⟨metrics, [dim0, (k1, ⟨lab1, none, some opts⟩)], some refs⟩ =
          some ⟨mlab ++ " " ++ rlab, rk ++ "." ++ mk⟩) ∧
    (∀ (metrics refs : List (String × String)) (dim0 : String × Dimension)
        (k1 lab1 : String) (opts : List (Val × Val)) (rk mk mlab rlab ls : String)
        (v : Val),
        rk ≠ "" → dictGet metrics mk = some mlab → dictGet refs rk = some rlab →
        isNaNVal v = false → dictGetOpt opts v = some (.vStr ls) →
        strContainsDot rk = false → strContainsDot mk = false →
        col_render_column_level (.multi [.vStr rk, .vStr mk, v])
            ⟨metrics, [dim0, (k1, ⟨lab1, none, some opts⟩)], some refs⟩ =
          some ⟨mlab ++ " " ++ rlab ++ " (" ++ ls ++ ")",
                rk ++ "." ++ pyStr v ++ "." ++ mk⟩) ∧
    (∀ (metrics refs : List (String × String)) (dim0 : String × Dimension)
        (k1 lab1 k2 lab2 : String) (opts1 opts2 : List (Val × Val))
        (rk mk mlab rlab ls2 : String) (v2 : Val),
        rk ≠ "" → dictGet metrics mk = some mlab → dictGet refs rk = some rlab →
        isNaNVal v2 = false → dictGetOpt opts2 v2 = some (.vStr ls2) →
        strContainsDot rk = false → strContainsDot mk = false →
        col_render_column_level (.multi [.vStr rk, .vStr mk, .vFloat .nan, v2])
            ⟨metrics, [dim0, (k1, ⟨lab1, none, some opts1⟩),
                       (k2, ⟨lab2, none, some opts2⟩)], some refs⟩ =
          some ⟨mlab ++ " " ++ rlab ++ " (" ++ ls2 ++ ")",
                rk ++ "." ++ pyStr v2 ++ "." ++ mk⟩) ∧
    (∀ (metrics : List (String × String)) (dim0 : String × Dimension)
        (k1 lab1 : String) (opts : List (Val × Val)) (mk mlab ls : String) (v : Val),
        dictGet metrics mk = some mlab →
        isNaNVal v = false → dictGetOpt opts v = some (.vStr ls) →
        strContainsDot mk = false →
        col_render_column_level (.multi [.vStr mk, v])
            ⟨metrics, [dim0, (k1, ⟨lab1, none, some opts⟩)], none⟩ =
          some ⟨mlab ++ " (" ++ ls ++ ")", pyStr v ++ "." ++ mk⟩) := by
  refine ⟨?_, ?_, ?_, ?_⟩
  · intro metrics refs dim0 k1 lab1 opts rk mk mlab rlab hrk hmet href
    simp [col_render_column_level, render_column_level, Val.truthy, hrk,
      dictGetV', hmet, href, pivotLevelLoop, colKeyGet, isNaNVal, pyStr_vStr, pyJoin]
  · intro metrics refs dim0 k1 lab1 opts rk mk mlab rlab ls v hrk hmet href hnan hlk hdr hdm
    have hsplice := pyReplaceDot_mid rk mk (pyStr v) hdr hdm
    have hcontains := strContainsDot_append_dot rk mk
    simp [col_render_column_level, render_column_level, Val.truthy, hrk,
      dictGetV', hmet, href, pivotLevelLoop, colKeyGet, hnan, hlk,
      pyJoinVals_single, pyStr_vStr, pyJoin, hcontains, hsplice]
  · intro metrics refs dim0 k1 lab1 k2 lab2 opts1 opts2 rk mk mlab rlab ls2 v2
      hrk hmet href hnan hlk hdr hdm
    have hsplice := pyReplaceDot_mid rk mk (pyStr v2) hdr hdm
    have hcontains := strContainsDot_append_dot rk mk
    simp [col_render_column_level, render_column_level, Val.truthy, hrk,
      dictGetV', hmet, href, pivotLevelLoop, colKeyGet, hnan, hlk,
      isNaNVal_nan, pyJoinVals_single, pyStr_vStr, pyJoin, hcontains, hsplice]
  · intro metrics dim0 k1 lab1 opts mk mlab ls v hmet hnan hlk hdm
    simp [col_render_column_level, render_column_level, dictGetV', hmet,
      pivotLevelLoop, colKeyGet, hnan, hlk, pyJoinVals_single, pyStr_vStr,
      pyJoin, hdm]

/-- Witness for C6: a NaN level dropped, and a kept level whose substituted
label is the totals label. -/
theorem spec_c6_witness :
    col_render_column_level (.multi [.vStr "eoe", .vStr "votes", .vFloat .nan])
        ⟨[("votes", "Votes")],
         [("ts", ⟨"Timestamp", none, none⟩),
          ("party", ⟨"Party", none, some [(Val.vStr "d", Val.vStr "Totals")]⟩)],
         some [("eoe", "EoE")]⟩ =
      some ⟨"Votes" ++ " " ++ "EoE", "eoe" ++ "." ++ "votes"⟩ ∧
    col_render_column_level (.multi [.vStr "eoe", .vStr "votes", .vStr "d"])
        ⟨[("votes", "Votes")],
         [("ts", ⟨"Timestamp", none, none⟩),
          ("party", ⟨"Party", none, some [(Val.vStr "d", Val.vStr "Totals")]⟩)],
         some [("eoe", "EoE")]⟩ =
      some ⟨"Votes" ++ " " ++ "EoE" ++ " (" ++ "Totals" ++ ")",
            "eoe" ++ "." ++ pyStr (Val.vStr "d") ++ "." ++ "votes"⟩ :=
  ⟨spec_c6_pivot_levels.1 [("votes", "Votes")] [("eoe", "EoE")]
     ("ts", ⟨"Timestamp", none, none⟩) "party" "Party"
     [(Val.vStr "d", Val.vStr "Totals")] "eoe" "votes" "Votes" "EoE"
     (by decide) rfl rfl,
   spec_c6_pivot_levels.2.1 [("votes", "Votes")] [("eoe", "EoE")]
     ("ts", ⟨"Timestamp", none, none⟩) "party" "Party"
     [(Val.vStr "d", Val.vStr "Totals")] "eoe" "votes" "Votes" "EoE" "Totals"
     (Val.vStr "d") (by decide) rfl rfl rfl rfl (by decide) (by decide)⟩

/-! ### Lemmas for the zero-pivot equivalence (C3) -/

theorem pivotLevelLoop_nil (mc : ColKey) (i : Nat) :
    pivotLevelLoop mc [] i = some ([], []) := rfl

theorem col_rcl_eq_row (s : DisplaySchema) (h : s.dimensions.length ≤ 1) (mc : ColKey) :
    col_render_column_level mc s = render_column_level mc s := by
  have hd : s.dimensions.drop 1 = [] := List.drop_eq_nil_of_le h
  cases hb : render_column_level mc s with
  | none => simp [col_render_column_level, hb]
  | some c =>
      simp [col_render_column_level, hb, hd, pivotLevelLoop, pyJoin]

theorem col_recurse_nil_none (ser : Series) (m : List (String × String)) :
    col_recurse ser [] m none = metricsLoop ser m := by
  unfold col_recurse
  simp

theorem col_recurse_nil (ser : Series) (m : List (String × String)) (r : Option String) :
    col_recurse ser [] m r = row_recurse ser [] m r := by
  cases r with
  | none =>
      rw [col_recurse_nil_none]
      rfl
  | some r =>
      unfold col_recurse
      by_cases hr : r = "" <;>
        simp [row_recurse, hr, col_recurse_nil_none]

theorem refLoop_nil (ser : Series) (m : List (String × String)) :
    ∀ rs, refLoop col_recurse ser [] m rs = refLoop row_recurse ser [] m rs := by
  intro rs
  induction rs with
  | nil => rfl
  | cons r rest ih =>
      simp only [refLoop, col_recurse_nil, ih]

theorem rmd_nil (ser : Series) (m : List (String × String))
    (refs : Option (List (String × String))) :
    render_metric_data col_recurse ser [] m refs =
      render_metric_data row_recurse ser [] m refs := by
  unfold render_metric_data
  cases refs with
  | none => simp only [col_recurse_nil]
  | some rs =>
      by_cases he : rs.isEmpty <;>
        simp only [he, col_recurse_nil, refLoop_nil, if_true, if_false]

theorem dataLoop_nil (cols : Cols) (rowDims : List (String × Dimension))
    (m : List (String × String)) (refs : Option (List (String × String))) :
    ∀ l, dataLoop col_recurse cols rowDims [] m refs l =
      dataLoop row_recurse cols rowDims [] m refs l := by
  intro l
  induction l with
  | nil => rfl
  | cons p rest ih =>
      simp only [dataLoop, rmd_nil, ih]

theorem colsLoop_eq (s : DisplaySchema) (h : s.dimensions.length ≤ 1) :
    ∀ ks, colsLoop col_render_column_level s ks = colsLoop render_column_level s ks := by
  intro ks
  induction ks with
  | nil => rfl
  | cons mc rest ih =>
      simp only [colsLoop, col_rcl_eq_row s h, ih]

/-- C3: with zero pivoted dimensions (at most one dimension in the schema)
the column-pivoted renderer and the row-oriented renderer produce identical
output structures (same columns and same data), for every well-formed
frame (a pandas MultiIndex always has at least one level). -/
theorem spec_c3_zero_pivot_equivalence (df : DataFrame) (s : DisplaySchema)
    (hlen : s.dimensions.length ≤ 1) (hwf : df.wfIdx = true) :
    colTransform df s = rowTransform df s := by
  unfold colTransform rowTransform transformWith
  have hprep : prepare_col df s.dimensions = prepare_row df s.dimensions := by
    unfold prepare_col
    rw [if_pos (by omega)]
  rw [hprep]
  have hidx : (prepare_row df s.dimensions).index = df.index := rfl
  have hn : 1 ≤ (prepare_row df s.dimensions).index.nLevels := by
    rw [hidx]
    unfold DataFrame.wfIdx at hwf
    cases h : df.index with
    | multi names keys =>
        rw [h] at hwf
        simp only [RowIndex.nLevels]
        cases names with
        | nil => simp at hwf
        | cons _ _ => simp
    | range n => simp [RowIndex.nLevels]
    | flat a b => simp [RowIndex.nLevels]
  have hdrop : s.dimensions.drop (prepare_row df s.dimensions).index.nLevels = [] :=
    List.drop_eq_nil_of_le (hlen.trans hn)
  have hcols : render_columns col_render_column_level (prepare_row df s.dimensions) s =
      render_columns render_column_level (prepare_row df s.dimensions) s := by
    unfold render_columns
    rw [colsLoop_eq s hlen]
  have hdata : render_data col_recurse (prepare_row df s.dimensions) s =
      render_data row_recurse (prepare_row df s.dimensions) s := by
    simp only [render_data]
    rw [hdrop]
    exact dataLoop_nil _ _ _ _ _
  simp only [hcols, hdata]

/-- Witness for C3 at a concrete one-dimension frame. -/
theorem spec_c3_witness :
    ((⟨[("votes", "Votes")], [("party", ⟨"Party", none, none⟩)], none⟩ :
        DisplaySchema).dimensions.length ≤ 1) ∧
    (⟨.flat (some "party") [Val.vStr "d", Val.vStr "r"], .flat ["votes"],
        [[Val.vInt 10], [Val.vInt 20]]⟩ : DataFrame).wfIdx = true ∧
    colTransform
        ⟨.flat (some "party") [Val.vStr "d", Val.vStr "r"], .flat ["votes"],
         [[Val.vInt 10], [Val.vInt 20]]⟩
        ⟨[("votes", "Votes")], [("party", ⟨"Party", none, none⟩)], none⟩ =
      rowTransform
        ⟨.flat (some "party") [Val.vStr "d", Val.vStr "r"], .flat ["votes"],
         [[Val.vInt 10], [Val.vInt 20]]⟩
        ⟨[("votes", "Votes")], [("party", ⟨"Party", none, none⟩)], none⟩ :=
  ⟨by decide, rfl,
   spec_c3_zero_pivot_equivalence
     ⟨.flat (some "party") [Val.vStr "d", Val.vStr "r"], .flat ["votes"],
      [[Val.vInt 10], [Val.vInt 20]]⟩
     ⟨[("votes", "Votes")], [("party", ⟨"Party", none, none⟩)], none⟩
     (by decide) rfl⟩
